import Mathlib

/-!
Shallow embedding of the geometric feature-classification core of the
amuse-mobile repository (directory `cv_model/app/utils`): the eye, nose and
lip classifiers, the quality validator and the bounding-box calculator.
Coordinates are modelled as real numbers; Python lists as Lean lists;
`numpy` reductions (`mean`, `median`, `std`, `linalg.norm`) as their exact
real-valued counterparts.
-/

namespace Amuse

open Classical

noncomputable section

/-- One facial landmark: normalized `x`, `y`, `z` coordinates
(`cv_model/app/utils/*.py` consume dictionaries with these keys). -/
structure Landmark where
  x : ℝ
  y : ℝ
  z : ℝ

/-- Embeds `landmarks[i]` — list indexing.  All classifier entry points are called
with the fixed 478-landmark contract, so in the theorems the default is
never reached; the bounding-box code guards every access with
`idx < len(landmarks)` before indexing. -/
def getL (lms : List Landmark) (i : ℕ) : Landmark :=
  lms.getD i ⟨0, 0, 0⟩

/-- Build a 478-landmark face from an index function. -/
def mkFace (f : ℕ → Landmark) : List Landmark :=
  (List.range 478).map f

theorem getL_mkFace (f : ℕ → Landmark) (i : ℕ) (h : i < 478) :
    getL (mkFace f) i = f i := by
  simp [getL, mkFace, List.getD_eq_getElem?_getD, h]

theorem length_mkFace (f : ℕ → Landmark) : (mkFace f).length = 478 := by
  simp [mkFace]

/-- Embeds `np.linalg.norm` of the difference of two 2-D points. -/
def dist2 (p q : Landmark) : ℝ :=
  Real.sqrt ((p.x - q.x) ^ 2 + (p.y - q.y) ^ 2)

/-- Embeds `np.mean` over a list of floats (0 for the empty list, as a total
function; every use in the source is on a nonempty list). -/
def npMean (l : List ℝ) : ℝ :=
  l.sum / l.length

/-- Embeds `np.std` (population standard deviation). -/
def npStd (l : List ℝ) : ℝ :=
  Real.sqrt ((l.map (fun v => (v - npMean l) ^ 2)).sum / l.length)

/-- Embeds `np.median`: middle element of the sorted list for odd length, average
of the two middle elements for even length. -/
def npMedian (l : List ℝ) : ℝ :=
  let s := l.mergeSort (fun a b => decide (a ≤ b))
  if l.length % 2 = 1 then s.getD (l.length / 2) 0
  else (s.getD (l.length / 2 - 1) 0 + s.getD (l.length / 2) 0) / 2

theorem npMean_const {l : List ℝ} {a : ℝ} (h : ∀ v ∈ l, v = a)
    (hne : l ≠ []) : npMean l = a := by
  have hsum : l.sum = l.length * a := by
    rw [List.sum_eq_card_nsmul l a h]
    simp [nsmul_eq_mul]
  have hlen : (l.length : ℝ) ≠ 0 :=
    Nat.cast_ne_zero.mpr (List.length_pos.mpr hne).ne'
  rw [npMean, hsum, mul_comm, mul_div_assoc, div_self hlen, mul_one]

theorem npStd_const {l : List ℝ} {a : ℝ} (h : ∀ v ∈ l, v = a) :
    npStd l = 0 := by
  by_cases hne : l = []
  · simp [hne, npStd, npMean]
  · have hm : npMean l = a := npMean_const h hne
    have hz : (l.map (fun v => (v - npMean l) ^ 2)).sum = 0 := by
      apply List.sum_eq_zero
      intro v hv
      rcases List.mem_map.mp hv with ⟨w, hw, rfl⟩
      rw [hm, h w hw]
      ring
    simp [npStd, hz]

theorem npMedian_const {l : List ℝ} {a : ℝ} (h : ∀ v ∈ l, v = a)
    (hne : l ≠ []) : npMedian l = a := by
  have hperm : ∀ v ∈ l.mergeSort (fun a b => decide (a ≤ b)), v = a := by
    intro v hv
    exact h v ((List.mergeSort_perm l _).mem_iff.mp hv)
  have hlen : (l.mergeSort (fun a b => decide (a ≤ b))).length = l.length :=
    (List.mergeSort_perm l _).length_eq
  have hpos : 0 < l.length := List.length_pos.mpr hne
  have hget : ∀ i, i < l.length →
      (l.mergeSort (fun a b => decide (a ≤ b))).getD i 0 = a := by
    intro i hi
    have hi2 : i < (l.mergeSort (fun a b => decide (a ≤ b))).length := by
      rw [hlen]; exact hi
    rw [List.getD_eq_getElem?_getD, List.getElem?_eq_getElem hi2]
    exact hperm _ (List.getElem_mem hi2)
  rw [npMedian]
  by_cases hodd : l.length % 2 = 1
  · rw [if_pos hodd, hget _ (Nat.div_lt_self hpos (by norm_num))]
  · rw [if_neg hodd,
      hget _ (Nat.div_lt_self hpos (by norm_num)),
      hget _ (lt_of_le_of_lt (Nat.sub_le _ _)
        (Nat.div_lt_self hpos (by norm_num)))]
    ring

/-! ## Eye shape classifier (`cv_model/app/utils/eye_classifier.py`) -/

/-- The closed category enum of `EyeClassifier`. -/
inductive EyeShape
  | Almond
  | Round
  | Monolid
  | Hooded
  | Upturned
  | Downturned
deriving DecidableEq

/-- Landmark-index table for one eye (`RIGHT_EYE_LANDMARKS` /
`LEFT_EYE_LANDMARKS`). -/
structure EyeIdx where
  outline : List ℕ
  upper_lid : List ℕ
  lower_lid : List ℕ
  inner_corner : ℕ
  outer_corner : ℕ
  top_center : ℕ
  bottom_center : ℕ
  iris_center : ℕ

def rightEyeIdx : EyeIdx where
  outline := [33, 7, 163, 144, 145, 153, 154, 155, 133, 173, 157, 158, 159, 160, 161, 246]
  upper_lid := [159, 160, 161, 246, 33, 7, 163]
  lower_lid := [144, 145, 153, 154, 155, 133]
  inner_corner := 133
  outer_corner := 33
  top_center := 159
  bottom_center := 145
  iris_center := 468

def leftEyeIdx : EyeIdx where
  outline := [263, 249, 390, 373, 374, 380, 381, 382, 362, 398, 384, 385, 386, 387, 388, 466]
  upper_lid := [386, 387, 388, 466, 263, 249, 390]
  lower_lid := [373, 374, 380, 381, 382, 362]
  inner_corner := 362
  outer_corner := 263
  top_center := 386
  bottom_center := 374
  iris_center := 473

/-- The paired upper/lower-lid vertical samples that survive the sanity band
`0.001 < h < 0.5` (`_analyze_single_eye`, the `heights` list). -/
def eyeHeights (lms : List Landmark) (e : EyeIdx) : List ℝ :=
  ((e.upper_lid.zip e.lower_lid).map
    (fun p => |(getL lms p.1).y - (getL lms p.2).y|)).filter
    (fun h => decide (0.001 < h) && decide (h < 0.5))

/-- Embeds `_calculate_eyelid_coverage`. -/
def calcEyelidCoverage (lms : List Landmark) (e : EyeIdx) : ℝ :=
  let upper_lid_y := npMean (e.upper_lid.map (fun i => (getL lms i).y))
  let top_center_y := (getL lms e.top_center).y
  let bottom_center_y := (getL lms e.bottom_center).y
  let total_eye_height := |bottom_center_y - top_center_y|
  let eyelid_height := |upper_lid_y - top_center_y|
  let coverage := if total_eye_height > 0.001 then eyelid_height / total_eye_height else 0.5
  max 0 (min 1 coverage)

/-- Embeds `_calculate_corner_angle`: the simplified y-difference tilt, scaled by
100.  It reads only the y-coordinates of the two corners. -/
def calcCornerAngle (inner_corner outer_corner : Landmark) : ℝ :=
  (inner_corner.y - outer_corner.y) * 100

/-- Embeds `_analyze_eye_depth_3d`. -/
structure DepthMetrics where
  eyelid_depth_diff : ℝ
  lid_to_iris_depth : ℝ
  is_deep_set : Prop
  is_prominent : Prop
  depth_variation : ℝ

def analyzeEyeDepth (lms : List Landmark) (e : EyeIdx) : DepthMetrics :=
  let upper_lid_z := npMean (e.upper_lid.map (fun i => (getL lms i).z))
  let lower_lid_z := npMean (e.lower_lid.map (fun i => (getL lms i).z))
  let d := upper_lid_z - lower_lid_z
  let iris_z := (getL lms e.iris_center).z
  { eyelid_depth_diff := d
    lid_to_iris_depth := upper_lid_z - iris_z
    is_deep_set := d < -0.01
    is_prominent := d > 0.01
    depth_variation := |d| }

/-- Per-eye output of `_analyze_single_eye`. -/
structure EyeMetrics where
  aspect_ratio : ℝ
  eyelid_coverage : ℝ
  corner_angle : ℝ
  width : ℝ
  height : ℝ
  depth : DepthMetrics
  measurement_stability : ℝ
  height_samples : ℕ

def analyzeSingleEye (lms : List Landmark) (e : EyeIdx) : EyeMetrics :=
  let inner_corner := getL lms e.inner_corner
  let outer_corner := getL lms e.outer_corner
  let heights := eyeHeights lms e
  let eye_height :=
    if heights ≠ [] then npMedian heights
    else |(getL lms e.top_center).y - (getL lms e.bottom_center).y|
  let raw_width := dist2 outer_corner inner_corner
  let eye_width := if raw_width < 0.001 then 0.001 else raw_width
  let aspect0 := if eye_width > 0 then eye_height / eye_width else 0
  let height_variance := if heights.length > 1 then npStd heights else 0
  { aspect_ratio := max 0 (min 1 aspect0)
    eyelid_coverage := calcEyelidCoverage lms e
    corner_angle := calcCornerAngle inner_corner outer_corner
    width := eye_width
    height := eye_height
    depth := analyzeEyeDepth lms e
    measurement_stability := 1 / (1 + height_variance * 10)
    height_samples := heights.length }

/-- Averaged depth metrics of `_average_eye_metrics` (continuous values
averaged, boolean flags OR-ed). -/
structure AvgDepth where
  eyelid_depth_diff : ℝ
  is_deep_set : Prop
  is_prominent : Prop

/-- Averaged metrics from both eyes (`_average_eye_metrics`). -/
structure AvgMetrics where
  aspect_ratio : ℝ
  eyelid_coverage : ℝ
  corner_angle : ℝ
  depth : AvgDepth

def averageEyeMetrics (r l : EyeMetrics) : AvgMetrics where
  aspect_ratio := (r.aspect_ratio + l.aspect_ratio) / 2
  eyelid_coverage := (r.eyelid_coverage + l.eyelid_coverage) / 2
  corner_angle := (r.corner_angle + l.corner_angle) / 2
  depth :=
    { eyelid_depth_diff := (r.depth.eyelid_depth_diff + l.depth.eyelid_depth_diff) / 2
      is_deep_set := r.depth.is_deep_set ∨ l.depth.is_deep_set
      is_prominent := r.depth.is_prominent ∨ l.depth.is_prominent }

/-- The angle characteristic of `_determine_eye_shape`
(thresholds `upturned_min = 0.3`, `downturned_max = -0.3`). -/
def angleType (m : AvgMetrics) : Option EyeShape :=
  if m.corner_angle > 0.3 then some EyeShape.Upturned
  else if m.corner_angle < -0.3 then some EyeShape.Downturned
  else none

/-- Embeds `angle_confidence` of `_determine_eye_shape`; 0.0 when no angle type is
assigned.  `angle_strength = |corner_angle| / 15`. -/
def angleConf (m : AvgMetrics) (q : ℝ) : ℝ :=
  match angleType m with
  | some _ => (0.6 + min (|m.corner_angle| / 15) 1 * 0.35) * q
  | none => 0

/-- Embeds `base_shape` branch of `_determine_eye_shape`
(`monolid_max = 0.12`, `hooded_max = 0.30`, `round_min = 0.50`). -/
def baseShape (m : AvgMetrics) : EyeShape :=
  if m.eyelid_coverage < 0.12 then EyeShape.Monolid
  else if m.eyelid_coverage < 0.30 ∨ m.depth.is_deep_set then EyeShape.Hooded
  else if m.aspect_ratio > 0.50 then EyeShape.Round
  else EyeShape.Almond

/-- Embeds `base_confidence` of `_determine_eye_shape`, branch by branch. -/
def baseConf (m : AvgMetrics) (q : ℝ) : ℝ :=
  if m.eyelid_coverage < 0.12 then
    min 0.95 (0.75 + (0.12 - m.eyelid_coverage) * 2) * q
  else if m.eyelid_coverage < 0.30 ∨ m.depth.is_deep_set then
    (if m.depth.is_deep_set ∧ m.depth.eyelid_depth_diff < -0.02 then
      min 0.95 (0.85 + |m.depth.eyelid_depth_diff| * 5) * q
    else
      min 0.9 (0.7 + (0.30 - m.eyelid_coverage) * 1.5) * q)
  else if m.aspect_ratio > 0.50 then
    min 0.95 (0.7 + (m.aspect_ratio - 0.50) * 2) * q
  else
    max 0.65 (0.9 - |m.aspect_ratio - (0.30 + 0.50) / 2| * 2) * q

structure EyeShapeResult where
  primary_shape : EyeShape
  secondary_features : List EyeShape
  overall_confidence : ℝ

/-- The combination step of `_determine_eye_shape`: the angle type becomes
primary when `angle_confidence > 0.65` and `|corner_angle| > 3.0`; otherwise
the base shape is primary. -/
def determineEyeShape (m : AvgMetrics) (q : ℝ) : EyeShapeResult :=
  match angleType m with
  | some t =>
      if angleConf m q > 0.65 ∧ |m.corner_angle| > 3.0 then
        { primary_shape := t
          secondary_features :=
            if baseShape m ≠ EyeShape.Almond ∧ baseConf m q > 0.65 then [baseShape m] else []
          overall_confidence := angleConf m q }
      else
        { primary_shape := baseShape m
          secondary_features := if angleConf m q > 0.60 then [t] else []
          overall_confidence := baseConf m q }
  | none =>
      { primary_shape := baseShape m
        secondary_features := []
        overall_confidence := baseConf m q }

/-- Output of `classify_eyes` (categorical result, tags, overall confidence
and the averaged diagnostic metrics). -/
structure EyeClassification where
  eye_shape : EyeShape
  secondary_features : List EyeShape
  confidence : ℝ
  aspect_ratio : ℝ
  eyelid_coverage : ℝ
  corner_angle : ℝ
  measurement_quality : ℝ

/-- Embeds `EyeClassifier.classify_eyes`. -/
def classifyEyes (lms : List Landmark) : EyeClassification :=
  let r := analyzeSingleEye lms rightEyeIdx
  let l := analyzeSingleEye lms leftEyeIdx
  let avg := averageEyeMetrics r l
  let q := (r.measurement_stability + l.measurement_stability) / 2
  let c := determineEyeShape avg q
  { eye_shape := c.primary_shape
    secondary_features := c.secondary_features
    confidence := c.overall_confidence
    aspect_ratio := avg.aspect_ratio
    eyelid_coverage := avg.eyelid_coverage
    corner_angle := avg.corner_angle
    measurement_quality := q }

theorem baseShape_not_angle (m : AvgMetrics) :
    baseShape m ≠ EyeShape.Upturned ∧ baseShape m ≠ EyeShape.Downturned := by
  unfold baseShape
  split_ifs <;> simp

theorem angleType_cases (m : AvgMetrics) :
    angleType m = none ∨ angleType m = some EyeShape.Upturned ∨
      angleType m = some EyeShape.Downturned := by
  unfold angleType
  split_ifs <;> simp

theorem angleConf_of_none {m : AvgMetrics} (h : angleType m = none) (q : ℝ) :
    angleConf m q = 0 := by
  unfold angleConf
  rw [h]

/-- C1. Eye-shape combination rule: the angle type is primary exactly when
its confidence exceeds 0.65 and the absolute corner tilt exceeds 3.0; in that
case the base shape is a secondary tag iff it is not Almond and its
confidence exceeds 0.65; otherwise the base shape is primary and the angle
type is a secondary tag iff its confidence exceeds 0.60. -/
theorem C1_eye_combination (m : AvgMetrics) (q : ℝ) :
    ((∃ t, angleType m = some t ∧ (determineEyeShape m q).primary_shape = t) ↔
      angleConf m q > 0.65 ∧ |m.corner_angle| > 3.0)
    ∧ (angleConf m q > 0.65 ∧ |m.corner_angle| > 3.0 →
        (determineEyeShape m q).secondary_features =
          if baseShape m ≠ EyeShape.Almond ∧ baseConf m q > 0.65
          then [baseShape m] else [])
    ∧ (¬(angleConf m q > 0.65 ∧ |m.corner_angle| > 3.0) →
        (determineEyeShape m q).primary_shape = baseShape m ∧
        (determineEyeShape m q).secondary_features =
          match angleType m with
          | some t => if angleConf m q > 0.60 then [t] else []
          | none => []) := by
  rcases hA : angleType m with _ | t
  · have hc0 : angleConf m q = 0 := angleConf_of_none hA q
    have hno : ¬(angleConf m q > 0.65 ∧ |m.corner_angle| > 3.0) := by
      rintro ⟨hgt, -⟩
      rw [hc0] at hgt
      norm_num at hgt
    refine ⟨⟨?_, fun hc => absurd hc hno⟩, fun hc => absurd hc hno, fun _ => ?_⟩
    · rintro ⟨t, ht, -⟩
      exact Option.noConfusion ht
    · simp [determineEyeShape, hA]
  · simp only [determineEyeShape, hA]
    by_cases hcond : angleConf m q > 0.65 ∧ |m.corner_angle| > 3.0
    · rw [if_pos hcond]
      exact ⟨⟨fun _ => hcond, fun _ => ⟨t, rfl, rfl⟩⟩,
        fun _ => rfl, fun hn => absurd hcond hn⟩
    · rw [if_neg hcond]
      refine ⟨⟨?_, fun hc => absurd hc hcond⟩, fun hc => absurd hc hcond,
        fun _ => ⟨rfl, rfl⟩⟩
      rintro ⟨t', ht', hp⟩
      injection ht' with ht'
      have hp' : baseShape m = t' := hp
      rw [← ht'] at hp'
      have hb := baseShape_not_angle m
      rcases angleType_cases m with hn | hu | hd
      · rw [hA] at hn
        exact Option.noConfusion hn
      · rw [hA] at hu
        injection hu with hu
        rw [hu] at hp'
        exact absurd hp' hb.1
      · rw [hA] at hd
        injection hd with hd
        rw [hd] at hp'
        exact absurd hp' hb.2

/-- C1 witness: metrics with tilt 5, coverage 0, quality 1 make the angle
type primary (Upturned) with the base shape (Monolid) as the only tag. -/
theorem C1_eye_combination_witness :
    (determineEyeShape ⟨0.4, 0, 5, ⟨0, False, False⟩⟩ 1).primary_shape =
      EyeShape.Upturned
    ∧ (determineEyeShape ⟨0.4, 0, 5, ⟨0, False, False⟩⟩ 1).secondary_features =
      [EyeShape.Monolid] := by
  have hAT : angleType ⟨0.4, 0, 5, ⟨0, False, False⟩⟩ = some EyeShape.Upturned := by
    rw [angleType]
    norm_num
  have hcond : angleConf ⟨0.4, 0, 5, ⟨0, False, False⟩⟩ 1 > 0.65 ∧
      |(⟨0.4, 0, 5, ⟨0, False, False⟩⟩ : AvgMetrics).corner_angle| > 3.0 := by
    constructor
    · simp only [angleConf, hAT]
      rw [show |(⟨0.4, 0, 5, ⟨0, False, False⟩⟩ : AvgMetrics).corner_angle| = 5
          by norm_num,
        show min ((5:ℝ)/15) 1 = 5/15 from min_eq_left (by norm_num)]
      norm_num
    · show |(5:ℝ)| > 3.0
      norm_num
  obtain ⟨h1, h2, -⟩ := C1_eye_combination ⟨0.4, 0, 5, ⟨0, False, False⟩⟩ 1
  obtain ⟨t, hT, hP⟩ := h1.mpr hcond
  rw [hAT] at hT
  injection hT with hT
  have hBS : baseShape ⟨0.4, 0, 5, ⟨0, False, False⟩⟩ = EyeShape.Monolid := by
    rw [baseShape]
    norm_num
  have hBC : baseConf ⟨0.4, 0, 5, ⟨0, False, False⟩⟩ 1 > 0.65 := by
    rw [baseConf]
    rw [if_pos (show (⟨0.4, 0, 5, ⟨0, False, False⟩⟩ : AvgMetrics).eyelid_coverage
        < 0.12 by norm_num)]
    rw [show (0.75 + (0.12 - (⟨0.4, 0, 5, ⟨0, False, False⟩⟩ :
        AvgMetrics).eyelid_coverage) * 2 : ℝ) = 0.99 by norm_num]
    rw [min_eq_left (by norm_num : (0.95:ℝ) ≤ 0.99)]
    norm_num
  constructor
  · rw [hP, ← hT]
  · rw [h2 hcond, if_pos ⟨by rw [hBS]; simp, hBC⟩, hBS]

/-- C9. The secondary-features list produced by the combination step never
holds more than one element. -/
theorem C9_secondary_at_most_one (m : AvgMetrics) (q : ℝ) :
    (determineEyeShape m q).secondary_features.length ≤ 1 := by
  unfold determineEyeShape
  rcases angleType_cases m with h | h | h <;> rw [h] <;>
    split_ifs <;> simp

/-! ## Nose width classifier (`cv_model/app/utils/nose_classifier.py`) -/

inductive NoseCat
  | narrow
  | medium
  | wide
deriving DecidableEq

/-- Embeds `_calculate_nose_metrics_multipoint`: ala, outer-nostril and
inner-nostril widths, their mean, `np.std`-based stability and flare. -/
structure NoseMetrics where
  avg_width : ℝ
  ala_width : ℝ
  nostril_width : ℝ
  measurement_stability : ℝ
  width_variance : ℝ
  nostril_flare : ℝ
  sample_count : ℕ

def noseMetricsMultipoint (lms : List Landmark) : NoseMetrics :=
  let ala_width := dist2 (getL lms 358) (getL lms 129)
  let nostril_width := dist2 (getL lms 327) (getL lms 98)
  let inner_width := dist2 (getL lms 439) (getL lms 219)
  let widths := [ala_width, nostril_width, inner_width]
  let width_variance := npStd widths
  { avg_width := npMean widths
    ala_width := ala_width
    nostril_width := nostril_width
    measurement_stability := 1 / (1 + width_variance * 5)
    width_variance := width_variance
    nostril_flare := if inner_width > 0 then (ala_width - inner_width) / inner_width else 0
    sample_count := widths.length }

/-- Embeds `_calculate_face_width`: cheek-to-cheek distance (landmarks 234/454). -/
def calcFaceWidth (lms : List Landmark) : ℝ :=
  dist2 (getL lms 454) (getL lms 234)

/-- Embeds `_analyze_nose_depth_3d`. -/
structure NoseDepth where
  nose_projection : ℝ
  bridge_prominence : ℝ
  ala_projection : ℝ
  is_prominent : Prop
  is_flat : Prop
  has_high_bridge : Prop

def analyzeNoseDepth (lms : List Landmark) : NoseDepth :=
  let face_plane_z := ((getL lms 234).z + (getL lms 454).z) / 2
  let nose_projection := (getL lms 1).z - face_plane_z
  let bridge_prominence := (getL lms 168).z - face_plane_z
  { nose_projection := nose_projection
    bridge_prominence := bridge_prominence
    ala_projection := ((getL lms 129).z + (getL lms 358).z) / 2 - face_plane_z
    is_prominent := nose_projection > 0.02
    is_flat := nose_projection < -0.01
    has_high_bridge := bridge_prominence > 0.015 }

/-- The three-bucket decision of `_determine_nose_width`
(`narrow_max = medium_min = 0.25`, `medium_max = 0.35`). -/
def noseCategory (ratio : ℝ) : NoseCat :=
  if ratio < 0.25 then NoseCat.narrow
  else if ratio ≤ 0.35 then NoseCat.medium
  else NoseCat.wide

/-- The per-bucket `base_confidence` of `_determine_nose_width` (before the
measurement-stability multiplier and the 3D boost). -/
def noseBaseConfidence (ratio : ℝ) : ℝ :=
  if ratio < 0.25 then min 0.95 (0.7 + (0.25 - ratio) * 4)
  else if ratio ≤ 0.35 then max 0.65 (0.9 - |ratio - (0.25 + 0.35) / 2| * 5)
  else min 0.95 (0.7 + (ratio - 0.35) * 4)

structure NoseResult where
  category : NoseCat
  base_confidence : ℝ
  confidence : ℝ

/-- Embeds `_determine_nose_width`: bucket decision, stability multiplier and the
3D confidence boost (the boost only rescales the confidence, capped at
0.95). -/
def determineNoseWidth (ratio stability : ℝ) (depth : Option NoseDepth) :
    NoseResult :=
  let category := noseCategory ratio
  let base := noseBaseConfidence ratio
  let conf := base * stability
  let conf :=
    match depth with
    | some d =>
        if category = NoseCat.wide ∧ d.is_prominent then min 0.95 (conf * 1.1)
        else if category = NoseCat.narrow ∧ d.has_high_bridge then min 0.95 (conf * 1.05)
        else conf
    | none => conf
  { category := category, base_confidence := base, confidence := conf }

/-- Output of `classify_nose` (category, confidence and the ratio). -/
structure NoseClassification where
  nose_width : NoseCat
  confidence : ℝ
  nose_to_face_ratio : ℝ
  measurement_quality : ℝ

/-- Embeds `NoseClassifier.classify_nose`. -/
def classifyNose (lms : List Landmark) : NoseClassification :=
  let m := noseMetricsMultipoint lms
  let face_width := calcFaceWidth lms
  let ratio := if face_width > 0 then m.avg_width / face_width else 0
  let depth := analyzeNoseDepth lms
  let c := determineNoseWidth ratio m.measurement_stability (some depth)
  { nose_width := c.category
    confidence := c.confidence
    nose_to_face_ratio := ratio
    measurement_quality := m.measurement_stability }

theorem determineNoseWidth_category (ratio stability : ℝ)
    (depth : Option NoseDepth) :
    (determineNoseWidth ratio stability depth).category = noseCategory ratio := rfl

theorem determineNoseWidth_base (ratio stability : ℝ)
    (depth : Option NoseDepth) :
    (determineNoseWidth ratio stability depth).base_confidence =
      noseBaseConfidence ratio := rfl

/-- C2. Nose bucket boundaries and confidence shape: ratio 0.20 is narrow,
0.30 medium, 0.40 wide; the pre-quality confidence is monotone away from the
bucket boundaries (toward the medium midpoint, toward the extremes for
narrow/wide); stability and the 3D boost never change the category. -/
theorem C2_nose_buckets :
    (∀ s d, (determineNoseWidth 0.20 s d).category = NoseCat.narrow
      ∧ (determineNoseWidth 0.30 s d).category = NoseCat.medium
      ∧ (determineNoseWidth 0.40 s d).category = NoseCat.wide)
    ∧ (∀ r1 r2 s d, r1 ≤ r2 → r2 < 0.25 →
        (determineNoseWidth r2 s d).base_confidence ≤
          (determineNoseWidth r1 s d).base_confidence)
    ∧ (∀ r1 r2 s d, 0.25 ≤ r1 → r1 ≤ 0.35 → 0.25 ≤ r2 → r2 ≤ 0.35 →
        |r1 - 0.30| ≤ |r2 - 0.30| →
        (determineNoseWidth r2 s d).base_confidence ≤
          (determineNoseWidth r1 s d).base_confidence)
    ∧ (∀ r1 r2 s d, 0.35 < r1 → r1 ≤ r2 →
        (determineNoseWidth r1 s d).base_confidence ≤
          (determineNoseWidth r2 s d).base_confidence)
    ∧ (∀ r s1 s2 d1 d2, (determineNoseWidth r s1 d1).category =
        (determineNoseWidth r s2 d2).category) := by
  refine ⟨?_, ?_, ?_, ?_, ?_⟩
  · intro s d
    refine ⟨?_, ?_, ?_⟩ <;>
      · rw [determineNoseWidth_category, noseCategory]
        norm_num
  · intro r1 r2 s d h12 h2
    have h1 : r1 < 0.25 := lt_of_le_of_lt h12 h2
    rw [determineNoseWidth_base, determineNoseWidth_base,
      noseBaseConfidence, noseBaseConfidence, if_pos h1, if_pos h2]
    exact min_le_min le_rfl (by linarith)
  · intro r1 r2 s d h1a h1b h2a h2b hd
    have h1 : ¬ r1 < 0.25 := not_lt.mpr h1a
    have h2 : ¬ r2 < 0.25 := not_lt.mpr h2a
    rw [determineNoseWidth_base, determineNoseWidth_base,
      noseBaseConfidence, noseBaseConfidence, if_neg h1, if_neg h2,
      if_pos h1b, if_pos h2b]
    refine max_le_max le_rfl ?_
    have : (0.25 + 0.35) / 2 = (0.30 : ℝ) := by norm_num
    rw [this]
    nlinarith [abs_nonneg (r1 - 0.30), abs_nonneg (r2 - 0.30)]
  · intro r1 r2 s d h1 h12
    have h2 : (0.35 : ℝ) < r2 := lt_of_lt_of_le h1 h12
    rw [determineNoseWidth_base, determineNoseWidth_base,
      noseBaseConfidence, noseBaseConfidence,
      if_neg (by linarith : ¬ r1 < 0.25), if_neg (by linarith : ¬ r2 < 0.25),
      if_neg (not_le.mpr h1), if_neg (not_le.mpr h2)]
    exact min_le_min le_rfl (by linarith)
  · intro r s1 s2 d1 d2
    rw [determineNoseWidth_category, determineNoseWidth_category]

/-- C2 witness: concrete instances of every part. -/
theorem C2_nose_buckets_witness :
    (determineNoseWidth 0.20 1 none).category = NoseCat.narrow
    ∧ (determineNoseWidth 0.30 1 none).category = NoseCat.medium
    ∧ (determineNoseWidth 0.40 1 none).category = NoseCat.wide
    ∧ (determineNoseWidth 0.22 1 none).base_confidence ≤
        (determineNoseWidth 0.21 1 none).base_confidence
    ∧ (determineNoseWidth 0.27 1 none).base_confidence ≤
        (determineNoseWidth 0.29 1 none).base_confidence
    ∧ (determineNoseWidth 0.38 1 none).base_confidence ≤
        (determineNoseWidth 0.40 1 none).base_confidence
    ∧ (determineNoseWidth 0.30 (1/2) (some (analyzeNoseDepth []))).category =
        (determineNoseWidth 0.30 1 none).category := by
  obtain ⟨hcat, hnar, hmed, hwid, hind⟩ := C2_nose_buckets
  exact ⟨(hcat 1 none).1, (hcat 1 none).2.1, (hcat 1 none).2.2,
    hnar 0.21 0.22 1 none (by norm_num) (by norm_num),
    hmed 0.29 0.27 1 none (by norm_num) (by norm_num) (by norm_num)
      (by norm_num) (by rw [abs_of_neg (by norm_num), abs_of_neg (by norm_num)]; norm_num),
    hwid 0.38 0.40 1 none (by norm_num) (by norm_num),
    hind 0.30 (1/2) 1 (some (analyzeNoseDepth [])) none⟩

/-! ## Lip fullness classifier (`cv_model/app/utils/lip_classifier.py`) -/

inductive LipCat
  | thin
  | medium
  | full
deriving DecidableEq

/-- Embeds `_calculate_mouth_width` (corners 61 and 291). -/
def calcMouthWidth (lms : List Landmark) : ℝ :=
  dist2 (getL lms 291) (getL lms 61)

/-- Embeds `_analyze_lip_depth_3d`. -/
structure LipDepth where
  upper_projection : ℝ
  lower_projection : ℝ
  avg_projection : ℝ
  has_fullness : Prop

def analyzeLipDepth (lms : List Landmark) : LipDepth :=
  let corner_plane_z := ((getL lms 61).z + (getL lms 291).z) / 2
  let upper_projection := (getL lms 37).z - corner_plane_z
  let lower_projection := (getL lms 17).z - corner_plane_z
  let avg_projection := (upper_projection + lower_projection) / 2
  { upper_projection := upper_projection
    lower_projection := lower_projection
    avg_projection := avg_projection
    has_fullness := avg_projection > 0.01 }

/-- Embeds `_calculate_lip_metrics_multipoint`.  The sampled indices are
`[0, 2, 5, 7, -1]` (Python `len(upper_outer) = 10`); each passes the
`idx < len` guards, and each sample re-measures the same two center
distances, so the medians are over five copies of one value. -/
structure LipMetrics where
  upper_lip_thickness : ℝ
  lower_lip_thickness : ℝ
  total_lip_height : ℝ
  mouth_width : ℝ
  lip_height_to_width : ℝ
  upper_lip_to_width : ℝ
  lower_lip_to_width : ℝ
  measurement_stability : ℝ
  height_samples : ℕ

def lipSampleIdx : List ℤ := [0, 2, 5, 7, -1]

def lipMetricsMultipoint (lms : List Landmark) : LipMetrics :=
  let upper_heights := lipSampleIdx.filterMap
    (fun idx => if idx < 10 ∧ idx < 11
      then some |(getL lms 37).y - (getL lms 13).y| else none)
  let lower_heights := lipSampleIdx.filterMap
    (fun idx => if idx < 10 ∧ idx < 11
      then some |(getL lms 14).y - (getL lms 17).y| else none)
  let upper_thickness :=
    if upper_heights ≠ [] then npMedian upper_heights
    else dist2 (getL lms 37) (getL lms 13)
  let lower_thickness :=
    if lower_heights ≠ [] then npMedian lower_heights
    else dist2 (getL lms 14) (getL lms 17)
  let mouth_width := calcMouthWidth lms
  let total_height := upper_thickness + lower_thickness
  let height_variance :=
    if upper_heights ≠ [] ∧ lower_heights ≠ []
    then npStd (upper_heights ++ lower_heights) else 0
  { upper_lip_thickness := upper_thickness
    lower_lip_thickness := lower_thickness
    total_lip_height := total_height
    mouth_width := mouth_width
    lip_height_to_width := if mouth_width > 0 then total_height / mouth_width else 0
    upper_lip_to_width := if mouth_width > 0 then upper_thickness / mouth_width else 0
    lower_lip_to_width := if mouth_width > 0 then lower_thickness / mouth_width else 0
    measurement_stability := 1 / (1 + height_variance * 10)
    height_samples := upper_heights.length + lower_heights.length }

/-- Three-bucket decision of `_determine_lip_fullness`
(`thin_max = medium_min = 0.10`, `medium_max = 0.18`). -/
def lipCategory (ratio : ℝ) : LipCat :=
  if ratio < 0.10 then LipCat.thin
  else if ratio ≤ 0.18 then LipCat.medium
  else LipCat.full

def lipBaseConfidence (ratio : ℝ) : ℝ :=
  if ratio < 0.10 then min 0.95 (0.75 + (0.10 - ratio) * 5)
  else if ratio ≤ 0.18 then max 0.65 (0.9 - |ratio - (0.10 + 0.18) / 2| * 4)
  else min 0.95 (0.75 + (ratio - 0.18) * 3)

structure LipResult where
  category : LipCat
  base_confidence : ℝ
  confidence : ℝ

/-- Embeds `_determine_lip_fullness`. -/
def determineLipFullness (total_ratio upper_ratio lower_ratio stability : ℝ)
    (depth : Option LipDepth) : LipResult :=
  let category := lipCategory total_ratio
  let base := lipBaseConfidence total_ratio
  let conf := base * stability
  let conf :=
    match depth with
    | some d => if d.has_fullness ∧ category = LipCat.full then min 0.95 (conf * 1.1) else conf
    | none => conf
  { category := category, base_confidence := base, confidence := conf }

/-- Output of `classify_lips` (category, confidence and the ratio). -/
structure LipClassification where
  lip_fullness : LipCat
  confidence : ℝ
  lip_height_to_width : ℝ
  measurement_quality : ℝ

/-- Embeds `LipClassifier.classify_lips`. -/
def classifyLips (lms : List Landmark) : LipClassification :=
  let m := lipMetricsMultipoint lms
  let depth := analyzeLipDepth lms
  let c := determineLipFullness m.lip_height_to_width m.upper_lip_to_width
    m.lower_lip_to_width m.measurement_stability (some depth)
  { lip_fullness := c.category
    confidence := c.confidence
    lip_height_to_width := m.lip_height_to_width
    measurement_quality := m.measurement_stability }

/-! ## Bounding boxes (`cv_model/app/utils/bounding_box_calculator.py`) -/

/-- Python `int(...)`: truncation toward zero. -/
def pyInt (r : ℝ) : ℤ :=
  if r < 0 then ⌈r⌉ else ⌊r⌋

structure Box where
  x : ℝ
  y : ℝ
  width : ℝ
  height : ℝ
  normalized : Bool
deriving DecidableEq

/-- Python `min(xs)` over a nonempty list (0 for `[]`; the source guards the
empty case before calling it). -/
def minList (l : List ℝ) : ℝ :=
  match l with
  | [] => 0
  | h :: t => t.foldl min h

def maxList (l : List ℝ) : ℝ :=
  match l with
  | [] => 0
  | h :: t => t.foldl max h

theorem foldl_min_le_init (t : List ℝ) (a : ℝ) : t.foldl min a ≤ a := by
  induction t generalizing a with
  | nil => simp
  | cons b t2 ih => exact le_trans (ih (min a b)) (min_le_left a b)

theorem minList_le {l : List ℝ} {v : ℝ} (h : v ∈ l) : minList l ≤ v := by
  match l with
  | b :: t =>
    rw [minList]
    rcases List.mem_cons.mp h with rfl | hm
    · exact foldl_min_le_init t v
    · clear h
      induction t generalizing b with
      | nil => cases hm
      | cons c t2 ih =>
        rcases List.mem_cons.mp hm with rfl | hm2
        · exact le_trans (foldl_min_le_init t2 (min b v)) (min_le_right b v)
        · exact ih (min b c) hm2

theorem le_foldl_max_init (t : List ℝ) (a : ℝ) : a ≤ t.foldl max a := by
  induction t generalizing a with
  | nil => simp
  | cons b t2 ih => exact le_trans (le_max_left a b) (ih (max a b))

theorem le_maxList {l : List ℝ} {v : ℝ} (h : v ∈ l) : v ≤ maxList l := by
  match l with
  | b :: t =>
    rw [maxList]
    rcases List.mem_cons.mp h with rfl | hm
    · exact le_foldl_max_init t v
    · clear h
      induction t generalizing b with
      | nil => cases hm
      | cons c t2 ih =>
        rcases List.mem_cons.mp hm with rfl | hm2
        · exact le_trans (le_max_right b v) (le_foldl_max_init t2 (max b v))
        · exact ih (max b c) hm2

/-- The guarded coordinate extraction of `_calculate_box`:
`[landmarks[idx][key] for idx in indices if idx < len(landmarks)]`. -/
def pickCoords (lms : List Landmark) (idxs : List ℕ) (f : Landmark → ℝ) :
    List ℝ :=
  idxs.filterMap (fun i => if i < lms.length then some (f (getL lms i)) else none)

/-- Embeds `BoundingBoxCalculator._calculate_box` with padding fraction `p`
(constructor default 0.1). -/
def calcBox (lms : List Landmark) (idxs : List ℕ) (p : ℝ) (W H : ℕ)
    (normalize : Bool) : Box :=
  let xs := pickCoords lms idxs (fun q => q.x)
  let ys := pickCoords lms idxs (fun q => q.y)
  if xs = [] ∨ ys = [] then ⟨0, 0, 0, 0, normalize⟩ else
  let min_x := minList xs
  let max_x := maxList xs
  let min_y := minList ys
  let max_y := maxList ys
  let width := max_x - min_x
  let height := max_y - min_y
  let padding_x := width * p
  let padding_y := height * p
  let min_x2 := max 0 (min_x - padding_x)
  let min_y2 := max 0 (min_y - padding_y)
  let width2 := min (if normalize then 1 else (W : ℝ)) (width + 2 * padding_x)
  let height2 := min (if normalize then 1 else (H : ℝ)) (height + 2 * padding_y)
  if normalize then ⟨min_x2, min_y2, width2, height2, true⟩
  else ⟨(pyInt (min_x2 * W) : ℝ), (pyInt (min_y2 * H) : ℝ),
    (pyInt (width2 * W) : ℝ), (pyInt (height2 * H) : ℝ), false⟩

/-- The fixed landmark-index groups of `BoundingBoxCalculator`. -/
def faceContourIdx : List ℕ :=
  [10, 338, 297, 332, 284, 251, 389, 356, 454, 323, 361, 288,
   397, 365, 379, 378, 400, 377, 152, 148, 176, 149, 150, 136,
   172, 58, 132, 93, 234, 127, 162, 21, 54, 103, 67, 109]

def noseBoxIdx : List ℕ := [1, 98, 327, 129, 358, 168, 219, 439, 2, 94, 19, 1, 4, 5, 195, 197]

def lipBoxIdx : List ℕ :=
  [61, 146, 91, 181, 84, 17, 314, 405, 321, 375, 291, 185, 40, 39, 37, 0, 267, 269, 270, 409]

/-- Embeds `convert_to_pixel_coords`. -/
def convertToPixel (b : Box) (W H : ℕ) : Box :=
  if b.normalized = false then b
  else ⟨(pyInt (b.x * W) : ℝ), (pyInt (b.y * H) : ℝ),
    (pyInt (b.width * W) : ℝ), (pyInt (b.height * H) : ℝ), false⟩

/-- Mapping pixel coordinates back to normalized form by dividing by the
image dimensions (the inverse direction named by the round-trip property). -/
def normBack (b : Box) (W H : ℕ) : Box :=
  ⟨b.x / W, b.y / H, b.width / W, b.height / H, true⟩

theorem getL_mem {lms : List Landmark} {i : ℕ} (h : i < lms.length) :
    getL lms i ∈ lms := by
  rw [getL, List.getD_eq_getElem?_getD, List.getElem?_eq_getElem h]
  exact List.getElem_mem h

theorem mem_pickCoords {lms : List Landmark} {idxs : List ℕ}
    {f : Landmark → ℝ} {i : ℕ} (hi : i ∈ idxs) (hlt : i < lms.length) :
    f (getL lms i) ∈ pickCoords lms idxs f := by
  rw [pickCoords, List.mem_filterMap]
  exact ⟨i, hi, by rw [if_pos hlt]⟩

theorem pickCoords_mem_bounds {lms : List Landmark} {idxs : List ℕ}
    {f : Landmark → ℝ} {lo hi : ℝ}
    (h : ∀ lm ∈ lms, lo ≤ f lm ∧ f lm ≤ hi) :
    ∀ v ∈ pickCoords lms idxs f, lo ≤ v ∧ v ≤ hi := by
  intro v hv
  rw [pickCoords, List.mem_filterMap] at hv
  obtain ⟨i, -, hval⟩ := hv
  by_cases hlt : i < lms.length
  · rw [if_pos hlt] at hval
    injection hval with hval
    exact hval ▸ h _ (getL_mem hlt)
  · rw [if_neg hlt] at hval
    exact Option.noConfusion hval

/-- C7. Bounding-box containment: with nonnegative padding and normalized
landmark coordinates in `[0,1]`, the padded and clamped normalized box of
any index group contains every in-range source landmark of the group. -/
theorem C7_box_contains (lms : List Landmark) (idxs : List ℕ) (p : ℝ)
    (W H : ℕ) (hp : 0 ≤ p)
    (hcoord : ∀ lm ∈ lms, (0 ≤ lm.x ∧ lm.x ≤ 1) ∧ (0 ≤ lm.y ∧ lm.y ≤ 1))
    (i : ℕ) (hi : i ∈ idxs) (hlen : i < lms.length) :
    (calcBox lms idxs p W H true).x ≤ (getL lms i).x
    ∧ (getL lms i).x ≤ (calcBox lms idxs p W H true).x + (calcBox lms idxs p W H true).width
    ∧ (calcBox lms idxs p W H true).y ≤ (getL lms i).y
    ∧ (getL lms i).y ≤ (calcBox lms idxs p W H true).y + (calcBox lms idxs p W H true).height := by
  have hxmem : (getL lms i).x ∈ pickCoords lms idxs (fun q => q.x) :=
    mem_pickCoords hi hlen
  have hymem : (getL lms i).y ∈ pickCoords lms idxs (fun q => q.y) :=
    mem_pickCoords hi hlen
  have hxne : pickCoords lms idxs (fun q => q.x) ≠ [] :=
    List.ne_nil_of_mem hxmem
  have hyne : pickCoords lms idxs (fun q => q.y) ≠ [] :=
    List.ne_nil_of_mem hymem
  have hbounds :
      calcBox lms idxs p W H true =
        { x := max 0 (minList (pickCoords lms idxs (fun q => q.x)) -
            (maxList (pickCoords lms idxs (fun q => q.x)) -
             minList (pickCoords lms idxs (fun q => q.x))) * p)
          y := max 0 (minList (pickCoords lms idxs (fun q => q.y)) -
            (maxList (pickCoords lms idxs (fun q => q.y)) -
             minList (pickCoords lms idxs (fun q => q.y))) * p)
          width := min 1 ((maxList (pickCoords lms idxs (fun q => q.x)) -
             minList (pickCoords lms idxs (fun q => q.x))) +
            2 * ((maxList (pickCoords lms idxs (fun q => q.x)) -
             minList (pickCoords lms idxs (fun q => q.x))) * p))
          height := min 1 ((maxList (pickCoords lms idxs (fun q => q.y)) -
             minList (pickCoords lms idxs (fun q => q.y))) +
            2 * ((maxList (pickCoords lms idxs (fun q => q.y)) -
             minList (pickCoords lms idxs (fun q => q.y))) * p))
          normalized := true } := by
    rw [calcBox]
    simp only [hxne, hyne, false_or, if_false, if_true, or_self, ite_false, ite_true]
  rw [hbounds]
  have hgen : ∀ (g : Landmark → ℝ), (∀ lm ∈ lms, 0 ≤ g lm ∧ g lm ≤ 1) →
      g (getL lms i) ∈ pickCoords lms idxs g →
      max 0 (minList (pickCoords lms idxs g) -
          (maxList (pickCoords lms idxs g) - minList (pickCoords lms idxs g)) * p)
        ≤ g (getL lms i)
      ∧ g (getL lms i) ≤
        max 0 (minList (pickCoords lms idxs g) -
          (maxList (pickCoords lms idxs g) - minList (pickCoords lms idxs g)) * p) +
        min 1 ((maxList (pickCoords lms idxs g) - minList (pickCoords lms idxs g)) +
          2 * ((maxList (pickCoords lms idxs g) - minList (pickCoords lms idxs g)) * p)) := by
    intro g hg hmem
    set v := g (getL lms i) with hv
    set mn := minList (pickCoords lms idxs g) with hmn
    set mx := maxList (pickCoords lms idxs g) with hmx
    have h1 : mn ≤ v := minList_le hmem
    have h2 : v ≤ mx := le_maxList hmem
    have hval := hg _ (getL_mem hlen)
    have hv0 : 0 ≤ v := hval.1
    have hv1 : v ≤ 1 := hval.2
    have hmx1 : mx ≤ 1 := by
      match hpc : pickCoords lms idxs g with
      | [] => rw [hpc] at hmem; cases hmem
      | b :: t =>
        have : mx ∈ b :: t := by
          rw [hmx, hpc]
          have : ∀ c (t2 : List ℝ) , t2.foldl max c ∈ c :: t2 := by
            intro c t2
            induction t2 generalizing c with
            | nil => simp [List.foldl]
            | cons d t3 ih =>
              rcases List.mem_cons.mp (ih (max c d)) with h | h
              · rcases max_choice c d with hm | hm <;> rw [List.foldl, h, hm] <;> simp
              · rw [List.foldl]
                exact List.mem_cons_of_mem _ (List.mem_cons_of_mem _ h)
          exact this b t
        exact (pickCoords_mem_bounds hg mx (hpc ▸ this)).2
    have hpad : 0 ≤ (mx - mn) * p := mul_nonneg (by linarith) hp
    constructor
    · exact max_le (by linarith) (by linarith)
    · rcases min_cases 1 ((mx - mn) + 2 * ((mx - mn) * p)) with ⟨hmin, hle⟩ | ⟨hmin, hle⟩
      · have : max 0 (mn - (mx - mn) * p) ≥ 0 := le_max_left _ _
        rw [hmin]
        linarith
      · have : max 0 (mn - (mx - mn) * p) ≥ mn - (mx - mn) * p := le_max_right _ _
        rw [hmin]
        linarith
  have hx := hgen (fun q => q.x) (fun lm hm => (hcoord lm hm).1) hxmem
  have hy := hgen (fun q => q.y) (fun lm hm => (hcoord lm hm).2) hymem
  exact ⟨hx.1, hx.2, hy.1, hy.2⟩

/-- C7 witness: a concrete two-landmark set and group. -/
theorem C7_box_contains_witness :
    (calcBox [⟨0.2, 0.3, 0⟩, ⟨0.6, 0.7, 0⟩] [0, 1] 0.1 100 100 true).x
        ≤ (getL [⟨0.2, 0.3, 0⟩, ⟨0.6, 0.7, 0⟩] 0).x
    ∧ (getL [⟨0.2, 0.3, 0⟩, ⟨0.6, 0.7, 0⟩] 0).x
        ≤ (calcBox [⟨0.2, 0.3, 0⟩, ⟨0.6, 0.7, 0⟩] [0, 1] 0.1 100 100 true).x
          + (calcBox [⟨0.2, 0.3, 0⟩, ⟨0.6, 0.7, 0⟩] [0, 1] 0.1 100 100 true).width := by
  have h := C7_box_contains [⟨0.2, 0.3, 0⟩, ⟨0.6, 0.7, 0⟩] [0, 1] 0.1 100 100
    (by norm_num)
    (by
      intro lm hm
      rcases List.mem_cons.mp hm with rfl | hm2
      · norm_num
      · rcases List.mem_cons.mp hm2 with rfl | hm3
        · norm_num
        · cases hm3)
    0 (by simp) (by simp)
  exact ⟨h.1, h.2.1⟩

theorem pyInt_of_nonneg {r : ℝ} (h : 0 ≤ r) : pyInt r = ⌊r⌋ := by
  rw [pyInt, if_neg (not_lt.mpr h)]

theorem pyInt_div_close (a : ℝ) (n : ℕ) (ha : 0 ≤ a) (hn : 0 < n) :
    0 ≤ a - (pyInt (a * n) : ℝ) / n ∧ a - (pyInt (a * n) : ℝ) / n < 1 / n := by
  have hn' : (0 : ℝ) < n := Nat.cast_pos.mpr hn
  rw [pyInt_of_nonneg (mul_nonneg ha hn'.le)]
  have h1 : (⌊a * n⌋ : ℝ) ≤ a * n := Int.floor_le _
  have h2 : a * n < ⌊a * n⌋ + 1 := Int.lt_floor_add_one _
  constructor
  · rw [sub_nonneg, div_le_iff₀ hn']
    exact h1
  · have key : a < ((⌊a * n⌋ : ℝ) + 1) / n := by
      rw [lt_div_iff₀ hn']
      linarith
    have hsplit : ((⌊a * n⌋ : ℝ) + 1) / n = (⌊a * n⌋ : ℝ) / n + 1 / n := by
      ring
    rw [hsplit] at key
    linarith

/-- C8 counterexample: the claimed pixel round-trip fails far beyond
floating-point rounding.  For the normalized box with `x = 1/200` and a
100-pixel-wide image, `int(0.005 * 100) = 0`, so the round-tripped `x` is
`0`, an absolute error of `1/200`. -/
theorem C8_roundtrip_counterexample :
    (normBack (convertToPixel ⟨1/200, 1/4, 1/2, 1/2, true⟩ 100 100) 100 100).x = 0
    ∧ (⟨1/200, 1/4, 1/2, 1/2, true⟩ : Box).x = 1/200
    ∧ (normBack (convertToPixel ⟨1/200, 1/4, 1/2, 1/2, true⟩ 100 100) 100 100).x ≠
        (⟨1/200, 1/4, 1/2, 1/2, true⟩ : Box).x := by
  have hpi : pyInt ((1/200 : ℝ) * (100 : ℕ)) = 0 := by
    rw [pyInt_of_nonneg (by norm_num)]
    rw [show ((1/200 : ℝ) * (100 : ℕ)) = 1/2 by norm_num]
    rw [Int.floor_eq_iff]
    norm_num
  have hconv : convertToPixel ⟨1/200, 1/4, 1/2, 1/2, true⟩ 100 100 =
      ⟨(pyInt ((1/200 : ℝ) * (100 : ℕ)) : ℝ), (pyInt ((1/4 : ℝ) * (100 : ℕ)) : ℝ),
       (pyInt ((1/2 : ℝ) * (100 : ℕ)) : ℝ), (pyInt ((1/2 : ℝ) * (100 : ℕ)) : ℝ), false⟩ := by
    rw [convertToPixel]
    norm_num
  rw [hconv, normBack]
  rw [hpi]
  norm_num

/-- C8 amended: the round-trip reproduces each component within `1/W`
(x, width) resp. `1/H` (y, height) — the loss of Python `int(...)`
truncation — not within floating-point rounding tolerance. -/
theorem C8_roundtrip_error_bound (b : Box) (W H : ℕ) (hW : 0 < W)
    (hH : 0 < H) (hb : b.normalized = true) (hx : 0 ≤ b.x) (hy : 0 ≤ b.y)
    (hw : 0 ≤ b.width) (hh : 0 ≤ b.height) :
    |b.x - (normBack (convertToPixel b W H) W H).x| < 1 / W
    ∧ |b.y - (normBack (convertToPixel b W H) W H).y| < 1 / H
    ∧ |b.width - (normBack (convertToPixel b W H) W H).width| < 1 / W
    ∧ |b.height - (normBack (convertToPixel b W H) W H).height| < 1 / H := by
  have hconv : convertToPixel b W H =
      ⟨(pyInt (b.x * W) : ℝ), (pyInt (b.y * H) : ℝ),
       (pyInt (b.width * W) : ℝ), (pyInt (b.height * H) : ℝ), false⟩ := by
    rw [convertToPixel, if_neg (by rw [hb]; simp)]
  rw [hconv, normBack]
  have h1 := pyInt_div_close b.x W hx hW
  have h2 := pyInt_div_close b.y H hy hH
  have h3 := pyInt_div_close b.width W hw hW
  have h4 := pyInt_div_close b.height H hh hH
  refine ⟨?_, ?_, ?_, ?_⟩ <;>
    · rw [abs_of_nonneg]
      · first
        | exact h1.2 | exact h2.2 | exact h3.2 | exact h4.2
      · first
        | exact h1.1 | exact h2.1 | exact h3.1 | exact h4.1

/-- C8 witness for the amended bound at a concrete box. -/
theorem C8_roundtrip_error_bound_witness :
    |(1/4 : ℝ) - (normBack (convertToPixel ⟨1/4, 1/4, 1/2, 1/2, true⟩ 10 10) 10 10).x|
      < 1 / 10 := by
  have h := C8_roundtrip_error_bound ⟨1/4, 1/4, 1/2, 1/2, true⟩ 10 10
    (by norm_num) (by norm_num) rfl (by norm_num) (by norm_num)
    (by norm_num) (by norm_num)
  have hx := h.1
  norm_num at hx ⊢
  exact hx

theorem pickCoords_filter (lms : List Landmark) (idxs : List ℕ)
    (f : Landmark → ℝ) :
    pickCoords lms (idxs.filter (fun i => decide (i < lms.length))) f =
      pickCoords lms idxs f := by
  induction idxs with
  | nil => rfl
  | cons i t ih =>
    by_cases hlt : i < lms.length <;>
      simp [pickCoords, List.filter_cons, List.filterMap_cons, hlt] <;>
      simpa [pickCoords] using ih

theorem pickCoords_all_oob {lms : List Landmark} {idxs : List ℕ}
    (h : ∀ i ∈ idxs, lms.length ≤ i) (f : Landmark → ℝ) :
    pickCoords lms idxs f = [] := by
  induction idxs with
  | nil => rfl
  | cons i t ih =>
    rw [pickCoords, List.filterMap_cons,
      if_neg (not_lt.mpr (h i (by simp)))]
    exact ih (fun j hj => h j (by simp [hj]))

/-- C10. A landmark list shorter than the 478-landmark contract raises no
input-shape error in `_calculate_box`: out-of-range indices are silently
dropped (the box equals the box of the in-range sub-group), and when no
index of the group is in range the all-zero box is returned. -/
theorem C10_short_list (lms : List Landmark) (idxs : List ℕ) (p : ℝ)
    (W H : ℕ) (nz : Bool) (hshort : lms.length < 478) :
    calcBox lms idxs p W H nz =
      calcBox lms (idxs.filter (fun i => decide (i < lms.length))) p W H nz
    ∧ ((∀ i ∈ idxs, lms.length ≤ i) →
        calcBox lms idxs p W H nz = ⟨0, 0, 0, 0, nz⟩) := by
  constructor
  · rw [calcBox, calcBox, pickCoords_filter, pickCoords_filter]
  · intro hoob
    rw [calcBox, pickCoords_all_oob hoob, pickCoords_all_oob hoob]
    simp

/-- C10 witness: a one-landmark list with the face-contour group (whose
smallest index is 10) yields the all-zero box. -/
theorem C10_short_list_witness :
    calcBox [⟨0.5, 0.5, 0⟩] faceContourIdx 0.1 100 100 true =
      ⟨0, 0, 0, 0, true⟩ := by
  refine (C10_short_list [⟨0.5, 0.5, 0⟩] faceContourIdx 0.1 100 100 true
    (by norm_num)).2 ?_
  intro i hi
  revert hi
  rw [faceContourIdx]
  intro hi
  rcases List.mem_cons.mp hi with rfl | hi <;>
    [skip; (repeat (rcases List.mem_cons.mp hi with rfl | hi))] <;>
    simp_all <;> omega

/-! ## Quality validator (`cv_model/app/utils/quality_validator.py`) -/

/-- Python `math.atan2 y x` on the reals. -/
def pyAtan2 (y x : ℝ) : ℝ :=
  if x > 0 then Real.arctan (y / x)
  else if x < 0 ∧ 0 ≤ y then Real.arctan (y / x) + Real.pi
  else if x < 0 ∧ y < 0 then Real.arctan (y / x) - Real.pi
  else if x = 0 ∧ y > 0 then Real.pi / 2
  else if x = 0 ∧ y < 0 then -(Real.pi / 2)
  else 0

theorem pyAtan2_zero_neg {x : ℝ} (hx : x < 0) : pyAtan2 0 x = Real.pi := by
  rw [pyAtan2, if_neg (by simp [not_lt, hx.le]), if_pos ⟨hx, le_refl 0⟩,
    zero_div, Real.arctan_zero, zero_add]

/-- Embeds `check_head_pose` result. -/
structure PoseResult where
  is_frontal : Prop
  rotation_degrees : ℝ
  asymmetry : ℝ
  depth_asymmetry : ℝ
  pose_quality : ℝ

/-- Embeds `QualityValidator.check_head_pose`: rotation from the nose-tip→forehead
centerline (`math.degrees(atan2(dx, dy))`, absolute value), nose-offset
asymmetry and cheek z-asymmetry; `pose_quality = 1 - rotation/90`. -/
def checkHeadPose (lms : List Landmark) (W H : ℕ) : PoseResult :=
  let nose_tip := getL lms 1
  let forehead := getL lms 10
  let left_cheek := getL lms 234
  let right_cheek := getL lms 454
  let centerline_dx := nose_tip.x - forehead.x
  let centerline_dy := nose_tip.y - forehead.y
  let rotation_degrees := |pyAtan2 centerline_dx centerline_dy * 180 / Real.pi|
  let face_center_x := (left_cheek.x + right_cheek.x) / 2
  let nose_offset := |nose_tip.x - face_center_x| * W
  let face_width := |right_cheek.x - left_cheek.x| * W
  let asymmetry := if face_width > 0 then nose_offset / face_width else 0
  let depth_asymmetry := |left_cheek.z - right_cheek.z|
  { is_frontal := rotation_degrees < 15 ∧ asymmetry < 0.15 ∧ depth_asymmetry < 0.05
    rotation_degrees := rotation_degrees
    asymmetry := asymmetry
    depth_asymmetry := depth_asymmetry
    pose_quality := 1 - rotation_degrees / 90 }

inductive ExprType
  | neutral
  | mouth_open
  | smiling
  | eyebrows_raised
deriving DecidableEq

structure ExpressionResult where
  is_neutral : Prop
  expression_type : ExprType
  mouth_aspect : ℝ
  is_smiling : Prop
  eyebrow_distance : ℝ
  expression_confidence : ℝ

/-- Embeds `QualityValidator.check_facial_expression`
(`MAX_EXPRESSION_THRESHOLD = 0.15`, eyebrow threshold `0.08`). -/
def checkFacialExpression (lms : List Landmark) : ExpressionResult :=
  let upper_lip := getL lms 13
  let lower_lip := getL lms 14
  let mouth_left := getL lms 61
  let mouth_right := getL lms 291
  let mouth_height := |upper_lip.y - lower_lip.y|
  let mouth_width := |mouth_left.x - mouth_right.x|
  let mouth_aspect := if mouth_width > 0 then mouth_height / mouth_width else 0
  let lip_line_y := (upper_lip.y + lower_lip.y) / 2
  let smiling := mouth_left.y < lip_line_y ∧ mouth_right.y < lip_line_y
  let left_brow := |(getL lms 55).y - (getL lms 159).y|
  let right_brow := |(getL lms 285).y - (getL lms 386).y|
  let avg_brow := (left_brow + right_brow) / 2
  let etype :=
    if mouth_aspect > 0.15 then ExprType.mouth_open
    else if smiling then ExprType.smiling
    else if avg_brow > 0.08 then ExprType.eyebrows_raised
    else ExprType.neutral
  { is_neutral := etype = ExprType.neutral
    expression_type := etype
    mouth_aspect := mouth_aspect
    is_smiling := smiling
    eyebrow_distance := avg_brow
    expression_confidence := if etype = ExprType.neutral then 1.0 else 0.5 }

structure ConfidenceResult where
  average_confidence : ℝ
  min_confidence : ℝ
  low_confidence_count : ℕ
  confidence_quality : ℝ

/-- Embeds `QualityValidator.check_landmark_confidence`
(`MIN_LANDMARK_CONFIDENCE = 0.5`). -/
def checkLandmarkConfidence (confs : List ℝ) : ConfidenceResult :=
  if confs = [] then ⟨1, 1, 0, 1⟩
  else
    let low := (confs.filter (fun c => decide (c < 0.5))).length
    ⟨npMean confs, minList confs, low, 1 - (low : ℝ) / confs.length⟩

inductive WarnTag
  | head_rotated
  | non_neutral
  | low_landmarks
deriving DecidableEq

/-- The sub-score list assembled by `validate_all` /
`_calculate_overall_quality` (pose and expression always present, landmark
confidence only when a nonempty confidence list is supplied). -/
def qualityScores (pose : PoseResult) (expr : ExpressionResult)
    (confs : Option (List ℝ)) : List ℝ :=
  [pose.pose_quality, expr.expression_confidence] ++
    (match confs with
     | some cs =>
        if cs ≠ [] then [(checkLandmarkConfidence cs).confidence_quality] else []
     | none => [])

/-- Embeds `_calculate_overall_quality`: `np.mean(scores) if scores else 1.0`. -/
def calcOverallQuality (scores : List ℝ) : ℝ :=
  if scores ≠ [] then npMean scores else 1

structure QualityOutput where
  quality_score : ℝ
  warnings : List WarnTag
  is_acceptable : Prop

/-- Embeds `QualityValidator.validate_all` (warning strings abstracted to tags). -/
def validateAll (lms : List Landmark) (W H : ℕ)
    (confs : Option (List ℝ)) : QualityOutput :=
  let pose := checkHeadPose lms W H
  let expr := checkFacialExpression lms
  let warnings :=
    (if pose.is_frontal then [] else [WarnTag.head_rotated]) ++
    (if expr.is_neutral then [] else [WarnTag.non_neutral]) ++
    (match confs with
     | some cs =>
        if cs ≠ [] ∧ 0 < (checkLandmarkConfidence cs).low_confidence_count
        then [WarnTag.low_landmarks] else []
     | none => [])
  let overall := calcOverallQuality (qualityScores pose expr confs)
  { quality_score := overall
    warnings := warnings
    is_acceptable := overall ≥ 0.6 ∧ warnings.length ≤ 2 }

/-- The C6 failing input: nose tip straight above the forehead
(`dx = 0`, `dy < 0`, so `atan2` gives π and the rotation is 180°) with an
open mouth (expression confidence 0.5). -/
def qualityBugFace : ℕ → Landmark := fun i =>
  if i = 1 then ⟨0.5, 0.3, 0⟩
  else if i = 10 then ⟨0.5, 0.52, 0⟩
  else if i = 13 then ⟨0.5, 0.6, 0⟩
  else if i = 14 then ⟨0.5, 0.4, 0⟩
  else if i = 61 then ⟨0.8, 0.5, 0⟩
  else if i = 291 then ⟨0.2, 0.5, 0⟩
  else ⟨0.5, 0.5, 0⟩

def qualityBugLms : List Landmark := mkFace qualityBugFace

theorem pi_deg_abs : |Real.pi * 180 / Real.pi| = 180 := by
  rw [mul_comm, mul_div_assoc, div_self Real.pi_ne_zero, mul_one]
  exact abs_of_nonneg (by norm_num)

theorem getL_qualityBug (i : ℕ) (h : i < 478) :
    getL qualityBugLms i = qualityBugFace i := by
  rw [qualityBugLms]
  exact getL_mkFace _ _ h

theorem qualityBug_pose :
    checkHeadPose qualityBugLms 100 100 =
      { is_frontal := False
        rotation_degrees := 180
        asymmetry := 0
        depth_asymmetry := 0
        pose_quality := -1 } := by
  rw [checkHeadPose,
    getL_qualityBug 1 (by norm_num), getL_qualityBug 10 (by norm_num),
    getL_qualityBug 234 (by norm_num), getL_qualityBug 454 (by norm_num)]
  simp only [qualityBugFace]
  norm_num
  rw [pyAtan2_zero_neg (show (-(11/50) : ℝ) < 0 by norm_num), pi_deg_abs]
  norm_num

theorem qualityBug_expression :
    checkFacialExpression qualityBugLms =
      { is_neutral := False
        expression_type := ExprType.mouth_open
        mouth_aspect := 1/3
        is_smiling := False
        eyebrow_distance := 0
        expression_confidence := 0.5 } := by
  rw [checkFacialExpression,
    getL_qualityBug 13 (by norm_num), getL_qualityBug 14 (by norm_num),
    getL_qualityBug 61 (by norm_num), getL_qualityBug 291 (by norm_num),
    getL_qualityBug 55 (by norm_num), getL_qualityBug 159 (by norm_num),
    getL_qualityBug 285 (by norm_num), getL_qualityBug 386 (by norm_num)]
  simp only [qualityBugFace]
  norm_num [abs_of_nonneg]
  simp

/-- C6. Quality-score range bug: at the failing input (nose tip vertically
above the forehead, mouth open) the rotation is the documented
`|atan2| in degrees` = 180, the pose sub-score `1 - 180/90 = -1`, and the
overall quality score is `-1/4`, outside the documented `[0,1]`. -/
theorem C6_quality_score_negative :
    (checkHeadPose qualityBugLms 100 100).rotation_degrees = 180
    ∧ (checkHeadPose qualityBugLms 100 100).pose_quality = 1 - 180 / 90
    ∧ (validateAll qualityBugLms 100 100 none).quality_score = -(1/4)
    ∧ (validateAll qualityBugLms 100 100 none).quality_score < 0 := by
  refine ⟨by rw [qualityBug_pose], by rw [qualityBug_pose]; norm_num, ?_, ?_⟩ <;>
    · rw [validateAll, qualityScores, qualityBug_pose, qualityBug_expression,
        calcOverallQuality]
      rw [if_pos (by simp : ([(-1 : ℝ), 0.5] ++ []) ≠ [])]
      norm_num [npMean]

/-! ## Mirror symmetry of the eye classifier (C3) -/

/-- The mirror transform of the claim: every x-coordinate replaced by its
mirror image `x → 1 - x`. -/
def mirrorX (lms : List Landmark) : List Landmark :=
  lms.map (fun p => ⟨1 - p.x, p.y, p.z⟩)

theorem getL_mirrorX {lms : List Landmark} (h478 : lms.length = 478)
    {i : ℕ} (hi : i < 478) :
    getL (mirrorX lms) i =
      ⟨1 - (getL lms i).x, (getL lms i).y, (getL lms i).z⟩ := by
  have hi1 : i < lms.length := by rw [h478]; exact hi
  have hi2 : i < (mirrorX lms).length := by
    rw [mirrorX, List.length_map, h478]; exact hi
  rw [getL, getL, List.getD_eq_getElem?_getD, List.getD_eq_getElem?_getD,
    List.getElem?_eq_getElem hi1, List.getElem?_eq_getElem hi2]
  simp [mirrorX]

theorem calcCornerAngle_mirrorPt (a b : Landmark) :
    calcCornerAngle ⟨1 - a.x, a.y, a.z⟩ ⟨1 - b.x, b.y, b.z⟩ =
      calcCornerAngle a b := rfl

theorem dist2_mirrorPt (a b : Landmark) :
    dist2 ⟨1 - a.x, a.y, a.z⟩ ⟨1 - b.x, b.y, b.z⟩ = dist2 a b := by
  rw [dist2, dist2]
  congr 1
  ring

theorem eyeHeights_mirrorX {lms : List Landmark} (h478 : lms.length = 478)
    (e : EyeIdx) (hU : ∀ i ∈ e.upper_lid, i < 478)
    (hL : ∀ i ∈ e.lower_lid, i < 478) :
    eyeHeights (mirrorX lms) e = eyeHeights lms e := by
  rw [eyeHeights, eyeHeights]
  congr 1
  refine List.map_congr_left ?_
  rintro ⟨a, b⟩ hp
  obtain ⟨ha, hb⟩ := List.of_mem_zip hp
  rw [getL_mirrorX h478 (hU a ha), getL_mirrorX h478 (hL b hb)]

theorem calcEyelidCoverage_mirrorX {lms : List Landmark}
    (h478 : lms.length = 478) (e : EyeIdx) (hU : ∀ i ∈ e.upper_lid, i < 478)
    (hT : e.top_center < 478) (hB : e.bottom_center < 478) :
    calcEyelidCoverage (mirrorX lms) e = calcEyelidCoverage lms e := by
  rw [calcEyelidCoverage, calcEyelidCoverage,
    getL_mirrorX h478 hT, getL_mirrorX h478 hB]
  have hup : (e.upper_lid.map fun i => (getL (mirrorX lms) i).y) =
      e.upper_lid.map fun i => (getL lms i).y :=
    List.map_congr_left fun i hi => by rw [getL_mirrorX h478 (hU i hi)]
  rw [hup]

theorem analyzeEyeDepth_mirrorX {lms : List Landmark}
    (h478 : lms.length = 478) (e : EyeIdx) (hU : ∀ i ∈ e.upper_lid, i < 478)
    (hL : ∀ i ∈ e.lower_lid, i < 478) (hIr : e.iris_center < 478) :
    analyzeEyeDepth (mirrorX lms) e = analyzeEyeDepth lms e := by
  rw [analyzeEyeDepth, analyzeEyeDepth, getL_mirrorX h478 hIr]
  have hup : (e.upper_lid.map fun i => (getL (mirrorX lms) i).z) =
      e.upper_lid.map fun i => (getL lms i).z :=
    List.map_congr_left fun i hi => by rw [getL_mirrorX h478 (hU i hi)]
  have hlo : (e.lower_lid.map fun i => (getL (mirrorX lms) i).z) =
      e.lower_lid.map fun i => (getL lms i).z :=
    List.map_congr_left fun i hi => by rw [getL_mirrorX h478 (hL i hi)]
  rw [hup, hlo]

theorem analyzeSingleEye_mirrorX {lms : List Landmark}
    (h478 : lms.length = 478) (e : EyeIdx) (hU : ∀ i ∈ e.upper_lid, i < 478)
    (hL : ∀ i ∈ e.lower_lid, i < 478) (hInn : e.inner_corner < 478)
    (hOut : e.outer_corner < 478) (hT : e.top_center < 478)
    (hB : e.bottom_center < 478) (hIr : e.iris_center < 478) :
    analyzeSingleEye (mirrorX lms) e = analyzeSingleEye lms e := by
  rw [analyzeSingleEye, analyzeSingleEye,
    eyeHeights_mirrorX h478 e hU hL,
    calcEyelidCoverage_mirrorX h478 e hU hT hB,
    analyzeEyeDepth_mirrorX h478 e hU hL hIr,
    getL_mirrorX h478 hInn, getL_mirrorX h478 hOut,
    calcCornerAngle_mirrorPt, dist2_mirrorPt,
    getL_mirrorX h478 hT, getL_mirrorX h478 hB]

theorem classifyEyes_mirrorX {lms : List Landmark} (h478 : lms.length = 478) :
    classifyEyes (mirrorX lms) = classifyEyes lms := by
  rw [classifyEyes, classifyEyes,
    analyzeSingleEye_mirrorX h478 rightEyeIdx (by decide) (by decide)
      (by decide) (by decide) (by decide) (by decide) (by decide),
    analyzeSingleEye_mirrorX h478 leftEyeIdx (by decide) (by decide)
      (by decide) (by decide) (by decide) (by decide) (by decide)]

/-- C3 amended. Mirroring every x-coordinate (`x → 1 - x`) leaves the whole
eye classification unchanged (the corner-tilt metric reads only
y-coordinates, so it is NOT flipped and Upturned/Downturned are NOT
swapped). -/
theorem C3_mirror_invariance (lms : List Landmark) (h478 : lms.length = 478) :
    classifyEyes (mirrorX lms) = classifyEyes lms :=
  classifyEyes_mirrorX h478

def tiltFace : ℕ → Landmark := fun i =>
  if i = 33 then ⟨0.6, 0.5, 0⟩
  else if i = 133 then ⟨0.4, 0.55, 0⟩
  else if i = 144 ∨ i = 145 ∨ i = 153 ∨ i = 154 ∨ i = 155
       ∨ i = 373 ∨ i = 374 ∨ i = 380 ∨ i = 381 ∨ i = 382 ∨ i = 362 then ⟨0.5, 0.55, 0⟩
  else ⟨0.5, 0.5, 0⟩

def tiltLms : List Landmark := mkFace tiltFace

theorem getL_tilt (i : ℕ) (h : i < 478) : getL tiltLms i = tiltFace i := by
  rw [tiltLms]; exact getL_mkFace _ _ h

theorem tilt_heightsR : eyeHeights tiltLms rightEyeIdx =
    [1/20, 1/20, 1/20, 1/20, 1/20, 1/20] := by
  rw [eyeHeights, rightEyeIdx]
  simp only [List.zip_cons_cons, List.zip_nil_right, List.map_cons, List.map_nil]
  rw [getL_tilt 159 (by norm_num), getL_tilt 144 (by norm_num),
    getL_tilt 160 (by norm_num), getL_tilt 145 (by norm_num),
    getL_tilt 161 (by norm_num), getL_tilt 153 (by norm_num),
    getL_tilt 246 (by norm_num), getL_tilt 154 (by norm_num),
    getL_tilt 33 (by norm_num), getL_tilt 155 (by norm_num),
    getL_tilt 7 (by norm_num), getL_tilt 133 (by norm_num)]
  simp only [tiltFace]
  norm_num
  rw [show |(1/20 : ℝ)| = 1/20 by norm_num]
  refine List.filter_eq_self.mpr ?_
  intro a ha
  simp only [List.mem_cons, List.not_mem_nil, or_false, or_self] at ha
  subst ha
  norm_num [Bool.and_eq_true, decide_eq_true_eq]

theorem tilt_stabR :
    (analyzeSingleEye tiltLms rightEyeIdx).measurement_stability = 1 := by
  simp only [analyzeSingleEye]
  rw [tilt_heightsR]
  rw [if_pos (by norm_num :
    ([1/20, 1/20, 1/20, 1/20, 1/20, 1/20] : List ℝ).length > 1)]
  have hconst : ∀ v ∈ ([1/20, 1/20, 1/20, 1/20, 1/20, 1/20] : List ℝ), v = 1/20 := by
    intro v hv
    simp only [List.mem_cons, List.not_mem_nil, or_false, or_self] at hv
    exact hv
  rw [npStd_const hconst]
  norm_num

theorem tilt_covR :
    (analyzeSingleEye tiltLms rightEyeIdx).eyelid_coverage = 0 := by
  simp only [analyzeSingleEye]
  rw [calcEyelidCoverage]
  simp only [rightEyeIdx, List.map_cons, List.map_nil]
  rw [getL_tilt 159 (by norm_num), getL_tilt 160 (by norm_num),
    getL_tilt 161 (by norm_num), getL_tilt 246 (by norm_num),
    getL_tilt 33 (by norm_num), getL_tilt 7 (by norm_num),
    getL_tilt 163 (by norm_num), getL_tilt 145 (by norm_num)]
  simp only [tiltFace]
  norm_num [npMean]
  rw [show |(1/20 : ℝ)| = 1/20 by norm_num]
  norm_num

theorem tilt_angR :
    (analyzeSingleEye tiltLms rightEyeIdx).corner_angle = 5 := by
  simp only [analyzeSingleEye]
  rw [rightEyeIdx]
  rw [getL_tilt 133 (by norm_num), getL_tilt 33 (by norm_num)]
  simp only [tiltFace]
  rw [calcCornerAngle]
  norm_num

theorem tilt_depR :
    analyzeEyeDepth tiltLms rightEyeIdx =
      ⟨0, 0, False, False, 0⟩ := by
  rw [analyzeEyeDepth]
  simp only [rightEyeIdx, List.map_cons, List.map_nil]
  rw [getL_tilt 159 (by norm_num), getL_tilt 160 (by norm_num),
    getL_tilt 161 (by norm_num), getL_tilt 246 (by norm_num),
    getL_tilt 33 (by norm_num), getL_tilt 7 (by norm_num),
    getL_tilt 163 (by norm_num), getL_tilt 144 (by norm_num),
    getL_tilt 145 (by norm_num), getL_tilt 153 (by norm_num),
    getL_tilt 154 (by norm_num), getL_tilt 155 (by norm_num),
    getL_tilt 133 (by norm_num), getL_tilt 468 (by norm_num)]
  simp only [tiltFace]
  norm_num [npMean]


theorem tilt_heightsL : eyeHeights tiltLms leftEyeIdx =
    [1/20, 1/20, 1/20, 1/20, 1/20, 1/20] := by
  rw [eyeHeights, leftEyeIdx]
  simp only [List.zip_cons_cons, List.zip_nil_right, List.map_cons, List.map_nil]
  rw [getL_tilt 386 (by norm_num), getL_tilt 373 (by norm_num),
    getL_tilt 387 (by norm_num), getL_tilt 374 (by norm_num),
    getL_tilt 388 (by norm_num), getL_tilt 380 (by norm_num),
    getL_tilt 466 (by norm_num), getL_tilt 381 (by norm_num),
    getL_tilt 263 (by norm_num), getL_tilt 382 (by norm_num),
    getL_tilt 249 (by norm_num), getL_tilt 362 (by norm_num)]
  simp only [tiltFace]
  norm_num
  rw [show |(1/20 : ℝ)| = 1/20 by norm_num]
  refine List.filter_eq_self.mpr ?_
  intro a ha
  simp only [List.mem_cons, List.not_mem_nil, or_false, or_self] at ha
  subst ha
  norm_num [Bool.and_eq_true, decide_eq_true_eq]

theorem tilt_stabL :
    (analyzeSingleEye tiltLms leftEyeIdx).measurement_stability = 1 := by
  simp only [analyzeSingleEye]
  rw [tilt_heightsL]
  rw [if_pos (by norm_num :
    ([1/20, 1/20, 1/20, 1/20, 1/20, 1/20] : List ℝ).length > 1)]
  have hconst : ∀ v ∈ ([1/20, 1/20, 1/20, 1/20, 1/20, 1/20] : List ℝ), v = 1/20 := by
    intro v hv
    simp only [List.mem_cons, List.not_mem_nil, or_false, or_self] at hv
    exact hv
  rw [npStd_const hconst]
  norm_num

theorem tilt_angL :
    (analyzeSingleEye tiltLms leftEyeIdx).corner_angle = 5 := by
  simp only [analyzeSingleEye]
  rw [leftEyeIdx]
  rw [getL_tilt 362 (by norm_num), getL_tilt 263 (by norm_num)]
  simp only [tiltFace]
  rw [calcCornerAngle]
  norm_num

theorem tilt_classify :
    (classifyEyes tiltLms).eye_shape = EyeShape.Upturned := by
  simp only [classifyEyes]
  rw [show ((analyzeSingleEye tiltLms rightEyeIdx).measurement_stability +
      (analyzeSingleEye tiltLms leftEyeIdx).measurement_stability) / 2 = 1 by
    rw [tilt_stabR, tilt_stabL]; norm_num]
  have hAng : (averageEyeMetrics (analyzeSingleEye tiltLms rightEyeIdx)
      (analyzeSingleEye tiltLms leftEyeIdx)).corner_angle = 5 := by
    simp only [averageEyeMetrics]
    rw [tilt_angR, tilt_angL]
    norm_num
  have hAT : angleType (averageEyeMetrics (analyzeSingleEye tiltLms rightEyeIdx)
      (analyzeSingleEye tiltLms leftEyeIdx)) = some EyeShape.Upturned := by
    rw [angleType, hAng]
    norm_num
  have hcond : angleConf (averageEyeMetrics (analyzeSingleEye tiltLms rightEyeIdx)
        (analyzeSingleEye tiltLms leftEyeIdx)) 1 > 0.65 ∧
      |(averageEyeMetrics (analyzeSingleEye tiltLms rightEyeIdx)
        (analyzeSingleEye tiltLms leftEyeIdx)).corner_angle| > 3.0 := by
    constructor
    · simp only [angleConf, hAT]
      rw [hAng]
      rw [show |(5:ℝ)| = 5 by norm_num,
        show min ((5:ℝ)/15) 1 = 5/15 from min_eq_left (by norm_num)]
      norm_num
    · rw [hAng]
      norm_num
  simp only [determineEyeShape, hAT]
  rw [if_pos hcond]

/-- C3 counterexample: for the concrete tilted face, mirroring the
x-coordinates leaves the corner tilt at 5 (it is not flipped to -5) and the
classification stays Upturned (it is not swapped to Downturned). -/
theorem C3_mirror_counterexample :
    (analyzeSingleEye tiltLms rightEyeIdx).corner_angle = 5
    ∧ (analyzeSingleEye (mirrorX tiltLms) rightEyeIdx).corner_angle = 5
    ∧ (analyzeSingleEye (mirrorX tiltLms) rightEyeIdx).corner_angle ≠
        -(analyzeSingleEye tiltLms rightEyeIdx).corner_angle
    ∧ (classifyEyes tiltLms).eye_shape = EyeShape.Upturned
    ∧ (classifyEyes (mirrorX tiltLms)).eye_shape = EyeShape.Upturned := by
  have h478 : tiltLms.length = 478 := length_mkFace _
  have hmir : analyzeSingleEye (mirrorX tiltLms) rightEyeIdx =
      analyzeSingleEye tiltLms rightEyeIdx :=
    analyzeSingleEye_mirrorX h478 rightEyeIdx (by decide) (by decide)
      (by decide) (by decide) (by decide) (by decide) (by decide)
  refine ⟨tilt_angR, ?_, ?_, tilt_classify, ?_⟩
  · rw [hmir, tilt_angR]
  · rw [hmir, tilt_angR]
    norm_num
  · rw [classifyEyes_mirrorX h478]
    exact tilt_classify

/-- C3 witness for the amended invariance at the concrete tilted face. -/
theorem C3_mirror_invariance_witness :
    classifyEyes (mirrorX tiltLms) = classifyEyes tiltLms :=
  C3_mirror_invariance tiltLms (length_mkFace _)

/-! ## The C4 failing input: deep-set flags with full eyelid coverage -/

/-- Face whose eyes have eyelid coverage clamped to 1 while the upper lid
sits 0.015 behind the lower lid (deep-set flag on, averaged depth in
`[-0.02, -0.01)`), driving the Hooded branch confidence negative. -/
def hoodedFace : ℕ → Landmark := fun i =>
  if i = 159 ∨ i = 386 then ⟨0.5, 0.5, -0.015⟩
  else if i = 7 ∨ i = 249 then ⟨0.5, 0.53, -0.015⟩
  else if i = 160 ∨ i = 161 ∨ i = 246 ∨ i = 33 ∨ i = 163
       ∨ i = 387 ∨ i = 388 ∨ i = 466 ∨ i = 263 ∨ i = 390 then ⟨0.5, 0.52, -0.015⟩
  else if i = 133 ∨ i = 362 then ⟨0.5, 0.52, 0⟩
  else if i = 144 ∨ i = 145 ∨ i = 153 ∨ i = 154 ∨ i = 155
       ∨ i = 373 ∨ i = 374 ∨ i = 380 ∨ i = 381 ∨ i = 382 then ⟨0.5, 0.51, 0⟩
  else ⟨0.5, 0.5, 0⟩

def hoodedLms : List Landmark := mkFace hoodedFace

theorem getL_hooded (i : ℕ) (h : i < 478) : getL hoodedLms i = hoodedFace i := by
  rw [hoodedLms]; exact getL_mkFace _ _ h

theorem hooded_heightsR : eyeHeights hoodedLms rightEyeIdx =
    [1/100, 1/100, 1/100, 1/100, 1/100, 1/100] := by
  rw [eyeHeights, rightEyeIdx]
  simp only [List.zip_cons_cons, List.zip_nil_right, List.map_cons, List.map_nil]
  rw [getL_hooded 159 (by norm_num), getL_hooded 144 (by norm_num),
    getL_hooded 160 (by norm_num), getL_hooded 145 (by norm_num),
    getL_hooded 161 (by norm_num), getL_hooded 153 (by norm_num),
    getL_hooded 246 (by norm_num), getL_hooded 154 (by norm_num),
    getL_hooded 33 (by norm_num), getL_hooded 155 (by norm_num),
    getL_hooded 7 (by norm_num), getL_hooded 133 (by norm_num)]
  simp only [hoodedFace]
  norm_num
  rw [show |(1/100 : ℝ)| = 1/100 by norm_num]
  refine List.filter_eq_self.mpr ?_
  intro a ha
  simp only [List.mem_cons, List.not_mem_nil, or_false, or_self] at ha
  subst ha
  norm_num [Bool.and_eq_true, decide_eq_true_eq]

theorem hooded_heightsL : eyeHeights hoodedLms leftEyeIdx =
    [1/100, 1/100, 1/100, 1/100, 1/100, 1/100] := by
  rw [eyeHeights, leftEyeIdx]
  simp only [List.zip_cons_cons, List.zip_nil_right, List.map_cons, List.map_nil]
  rw [getL_hooded 386 (by norm_num), getL_hooded 373 (by norm_num),
    getL_hooded 387 (by norm_num), getL_hooded 374 (by norm_num),
    getL_hooded 388 (by norm_num), getL_hooded 380 (by norm_num),
    getL_hooded 466 (by norm_num), getL_hooded 381 (by norm_num),
    getL_hooded 263 (by norm_num), getL_hooded 382 (by norm_num),
    getL_hooded 249 (by norm_num), getL_hooded 362 (by norm_num)]
  simp only [hoodedFace]
  norm_num
  rw [show |(1/100 : ℝ)| = 1/100 by norm_num]
  refine List.filter_eq_self.mpr ?_
  intro a ha
  simp only [List.mem_cons, List.not_mem_nil, or_false, or_self] at ha
  subst ha
  norm_num [Bool.and_eq_true, decide_eq_true_eq]

theorem hooded_stabR :
    (analyzeSingleEye hoodedLms rightEyeIdx).measurement_stability = 1 := by
  simp only [analyzeSingleEye]
  rw [hooded_heightsR]
  rw [if_pos (by norm_num :
    ([1/100, 1/100, 1/100, 1/100, 1/100, 1/100] : List ℝ).length > 1)]
  have hconst : ∀ v ∈ ([1/100, 1/100, 1/100, 1/100, 1/100, 1/100] : List ℝ), v = 1/100 := by
    intro v hv
    simp only [List.mem_cons, List.not_mem_nil, or_false, or_self] at hv
    exact hv
  rw [npStd_const hconst]
  norm_num

theorem hooded_stabL :
    (analyzeSingleEye hoodedLms leftEyeIdx).measurement_stability = 1 := by
  simp only [analyzeSingleEye]
  rw [hooded_heightsL]
  rw [if_pos (by norm_num :
    ([1/100, 1/100, 1/100, 1/100, 1/100, 1/100] : List ℝ).length > 1)]
  have hconst : ∀ v ∈ ([1/100, 1/100, 1/100, 1/100, 1/100, 1/100] : List ℝ), v = 1/100 := by
    intro v hv
    simp only [List.mem_cons, List.not_mem_nil, or_false, or_self] at hv
    exact hv
  rw [npStd_const hconst]
  norm_num

theorem hooded_covR :
    (analyzeSingleEye hoodedLms rightEyeIdx).eyelid_coverage = 1 := by
  simp only [analyzeSingleEye]
  rw [calcEyelidCoverage]
  simp only [rightEyeIdx, List.map_cons, List.map_nil]
  rw [getL_hooded 159 (by norm_num), getL_hooded 160 (by norm_num),
    getL_hooded 161 (by norm_num), getL_hooded 246 (by norm_num),
    getL_hooded 33 (by norm_num), getL_hooded 7 (by norm_num),
    getL_hooded 163 (by norm_num), getL_hooded 145 (by norm_num)]
  simp only [hoodedFace]
  norm_num [npMean]
  rw [show |(13/700 : ℝ)| = 13/700 by norm_num,
    show |(1/100 : ℝ)| = 1/100 by norm_num]
  norm_num

theorem hooded_covL :
    (analyzeSingleEye hoodedLms leftEyeIdx).eyelid_coverage = 1 := by
  simp only [analyzeSingleEye]
  rw [calcEyelidCoverage]
  simp only [leftEyeIdx, List.map_cons, List.map_nil]
  rw [getL_hooded 386 (by norm_num), getL_hooded 387 (by norm_num),
    getL_hooded 388 (by norm_num), getL_hooded 466 (by norm_num),
    getL_hooded 263 (by norm_num), getL_hooded 249 (by norm_num),
    getL_hooded 390 (by norm_num), getL_hooded 374 (by norm_num)]
  simp only [hoodedFace]
  norm_num [npMean]
  rw [show |(13/700 : ℝ)| = 13/700 by norm_num,
    show |(1/100 : ℝ)| = 1/100 by norm_num]
  norm_num

theorem hooded_angR :
    (analyzeSingleEye hoodedLms rightEyeIdx).corner_angle = 0 := by
  simp only [analyzeSingleEye]
  rw [rightEyeIdx]
  rw [getL_hooded 133 (by norm_num), getL_hooded 33 (by norm_num)]
  simp only [hoodedFace]
  rw [calcCornerAngle]
  norm_num

theorem hooded_angL :
    (analyzeSingleEye hoodedLms leftEyeIdx).corner_angle = 0 := by
  simp only [analyzeSingleEye]
  rw [leftEyeIdx]
  rw [getL_hooded 362 (by norm_num), getL_hooded 263 (by norm_num)]
  simp only [hoodedFace]
  rw [calcCornerAngle]
  norm_num

theorem hooded_depR :
    analyzeEyeDepth hoodedLms rightEyeIdx =
      ⟨-(3/200), -(3/200), True, False, 3/200⟩ := by
  rw [analyzeEyeDepth]
  simp only [rightEyeIdx, List.map_cons, List.map_nil]
  rw [getL_hooded 159 (by norm_num), getL_hooded 160 (by norm_num),
    getL_hooded 161 (by norm_num), getL_hooded 246 (by norm_num),
    getL_hooded 33 (by norm_num), getL_hooded 7 (by norm_num),
    getL_hooded 163 (by norm_num), getL_hooded 144 (by norm_num),
    getL_hooded 145 (by norm_num), getL_hooded 153 (by norm_num),
    getL_hooded 154 (by norm_num), getL_hooded 155 (by norm_num),
    getL_hooded 133 (by norm_num), getL_hooded 468 (by norm_num)]
  simp only [hoodedFace]
  norm_num [npMean]

theorem hooded_depL :
    analyzeEyeDepth hoodedLms leftEyeIdx =
      ⟨-(3/200), -(3/200), True, False, 3/200⟩ := by
  rw [analyzeEyeDepth]
  simp only [leftEyeIdx, List.map_cons, List.map_nil]
  rw [getL_hooded 386 (by norm_num), getL_hooded 387 (by norm_num),
    getL_hooded 388 (by norm_num), getL_hooded 466 (by norm_num),
    getL_hooded 263 (by norm_num), getL_hooded 249 (by norm_num),
    getL_hooded 390 (by norm_num), getL_hooded 373 (by norm_num),
    getL_hooded 374 (by norm_num), getL_hooded 380 (by norm_num),
    getL_hooded 381 (by norm_num), getL_hooded 382 (by norm_num),
    getL_hooded 362 (by norm_num), getL_hooded 473 (by norm_num)]
  simp only [hoodedFace]
  norm_num [npMean]

/-- C4. Confidence bound violation (code bug): for the hoodedFace landmark
set — full 478 landmarks, eyelid coverage clamped to 1, averaged eyelid
depth −0.015 — the eye classifier's overall confidence is
`min(0.9, 0.7 + (0.3 − 1)·1.5) = −0.35`, outside `[0,1]`. -/
theorem C4_eye_confidence_negative :
    (classifyEyes hoodedLms).confidence = -(7/20)
    ∧ (classifyEyes hoodedLms).confidence < 0 := by
  have hdR : (analyzeSingleEye hoodedLms rightEyeIdx).depth =
      ⟨-(3/200), -(3/200), True, False, 3/200⟩ := by
    simp only [analyzeSingleEye]
    exact hooded_depR
  have hdL : (analyzeSingleEye hoodedLms leftEyeIdx).depth =
      ⟨-(3/200), -(3/200), True, False, 3/200⟩ := by
    simp only [analyzeSingleEye]
    exact hooded_depL
  have hAng : (averageEyeMetrics (analyzeSingleEye hoodedLms rightEyeIdx)
      (analyzeSingleEye hoodedLms leftEyeIdx)).corner_angle = 0 := by
    simp only [averageEyeMetrics]
    rw [hooded_angR, hooded_angL]
    norm_num
  have hCov : (averageEyeMetrics (analyzeSingleEye hoodedLms rightEyeIdx)
      (analyzeSingleEye hoodedLms leftEyeIdx)).eyelid_coverage = 1 := by
    simp only [averageEyeMetrics]
    rw [hooded_covR, hooded_covL]
    norm_num
  have hDD : (averageEyeMetrics (analyzeSingleEye hoodedLms rightEyeIdx)
      (analyzeSingleEye hoodedLms leftEyeIdx)).depth.eyelid_depth_diff
        = -(3/200) := by
    simp only [averageEyeMetrics]
    rw [hdR, hdL]
    norm_num
  have hDS : (averageEyeMetrics (analyzeSingleEye hoodedLms rightEyeIdx)
      (analyzeSingleEye hoodedLms leftEyeIdx)).depth.is_deep_set := by
    simp only [averageEyeMetrics]
    refine Or.inl ?_
    rw [hdR]
    trivial
  have hAT : angleType (averageEyeMetrics (analyzeSingleEye hoodedLms rightEyeIdx)
      (analyzeSingleEye hoodedLms leftEyeIdx)) = none := by
    rw [angleType, hAng]
    norm_num
  have hmain : (classifyEyes hoodedLms).confidence = -(7/20) := by
    simp only [classifyEyes]
    rw [show ((analyzeSingleEye hoodedLms rightEyeIdx).measurement_stability +
        (analyzeSingleEye hoodedLms leftEyeIdx).measurement_stability) / 2 = 1 by
      rw [hooded_stabR, hooded_stabL]; norm_num]
    simp only [determineEyeShape, hAT]
    rw [baseConf]
    rw [if_neg (by rw [hCov]; norm_num)]
    rw [if_pos (Or.inr hDS)]
    rw [if_neg (by
      rintro ⟨-, h2⟩
      rw [hDD] at h2
      norm_num at h2)]
    rw [hCov]
    rw [show (0.7 + (0.30 - (1:ℝ)) * 1.5) = -(7/20) by norm_num]
    rw [min_eq_right (by norm_num : (-(7/20) : ℝ) ≤ 0.9)]
    norm_num
  exact ⟨hmain, by rw [hmain]; norm_num⟩

/-- C5. Degenerate-geometry recovery: a zero total eye height makes the
eyelid coverage default to 0.5; an eye width below 0.001 is floored at
0.001; a zero face width makes the nose ratio 0; a zero mouth width makes
every lip ratio 0.  (All embedded functions are total: no exception paths
exist.) -/
theorem C5_degenerate_fallbacks (lms : List Landmark) (e : EyeIdx) :
    (|(getL lms e.bottom_center).y - (getL lms e.top_center).y| = 0 →
      calcEyelidCoverage lms e = 0.5)
    ∧ (dist2 (getL lms e.outer_corner) (getL lms e.inner_corner) < 0.001 →
      (analyzeSingleEye lms e).width = 0.001)
    ∧ (calcFaceWidth lms = 0 → (classifyNose lms).nose_to_face_ratio = 0)
    ∧ (calcMouthWidth lms = 0 →
        (lipMetricsMultipoint lms).lip_height_to_width = 0
        ∧ (lipMetricsMultipoint lms).upper_lip_to_width = 0
        ∧ (lipMetricsMultipoint lms).lower_lip_to_width = 0) := by
  refine ⟨?_, ?_, ?_, ?_⟩
  · intro h
    simp only [calcEyelidCoverage]
    rw [h]
    norm_num
  · intro h
    simp only [analyzeSingleEye]
    rw [if_pos h]
  · intro h
    simp only [classifyNose]
    rw [h]
    norm_num
  · intro h
    refine ⟨?_, ?_, ?_⟩ <;>
      · simp only [lipMetricsMultipoint]
        rw [h]
        norm_num

def constLms : List Landmark := mkFace (fun _ => ⟨0.5, 0.5, 0⟩)

theorem getL_constLms (i : ℕ) (h : i < 478) :
    getL constLms i = ⟨0.5, 0.5, 0⟩ := by
  rw [constLms]
  exact getL_mkFace _ _ h

theorem dist2_constLms (i j : ℕ) (hi : i < 478) (hj : j < 478) :
    dist2 (getL constLms i) (getL constLms j) = 0 := by
  rw [getL_constLms i hi, getL_constLms j hj]
  norm_num [dist2]

/-- C5 witness: the all-coincident 478-landmark face hits every fallback. -/
theorem C5_degenerate_fallbacks_witness :
    calcEyelidCoverage constLms rightEyeIdx = 0.5
    ∧ (analyzeSingleEye constLms rightEyeIdx).width = 0.001
    ∧ (classifyNose constLms).nose_to_face_ratio = 0
    ∧ (lipMetricsMultipoint constLms).lip_height_to_width = 0 := by
  have h := C5_degenerate_fallbacks constLms rightEyeIdx
  refine ⟨h.1 ?_, h.2.1 ?_, h.2.2.1 ?_, (h.2.2.2 ?_).1⟩
  · simp only [rightEyeIdx]
    rw [getL_constLms 145 (by norm_num), getL_constLms 159 (by norm_num)]
    norm_num
  · simp only [rightEyeIdx]
    rw [dist2_constLms 33 133 (by norm_num) (by norm_num)]
    norm_num
  · rw [calcFaceWidth]
    exact dist2_constLms 454 234 (by norm_num) (by norm_num)
  · rw [calcMouthWidth]
    exact dist2_constLms 291 61 (by norm_num) (by norm_num)

end

end Amuse
